import Mathlib

/-!
Shallow embedding of two Drake headers:
  * `geometry/render_gl/internal_opengl_geometry.h`
    (`RenderType`, `OpenGlGeometry`, `OpenGlInstance`)
  * `systems/sensors/pixel_types.h`
    (`PixelType`, `PixelFormat`, `PixelScalar`, the `ImageTraits` table)

C++ `GLuint` (32-bit unsigned) handles are modelled as `Nat`; the only
operation the code performs on them is equality comparison against the
sentinel `kInvalid = std::numeric_limits<GLuint>::max() = 2^32 - 1`, so no
modular arithmetic is needed.  C++ `int` fields are modelled as `Int`.
Constructors that `throw` / `DRAKE_DEMAND`-abort are modelled as functions
into `Except`, with one error value per distinct throw site.
-/

namespace Drake

/-! ## `internal_opengl_geometry.h` -/

/-- C++ enum `RenderType { kColor = 0, kLabel, kDepth, kTypeCount }`; the
three actual render types (`kTypeCount` is only the number of them, used as
the size of `OpenGlInstance::shader_data`). -/
inductive RenderType where
  | kColor
  | kLabel
  | kDepth
deriving DecidableEq, Repr

/-- The underlying enum value of a `RenderType` (its array index). -/
def RenderType.toIndex : RenderType → Nat
  | .kColor => 0
  | .kLabel => 1
  | .kDepth => 2

/-- `RenderType::kTypeCount`, the number of render types. -/
def RenderType.kTypeCount : Nat := 3

/-- `struct OpenGlGeometry`: the handle bundle for one GPU mesh.
Fields in source order with the source's names. -/
structure OpenGlGeometry where
  vertex_array : Nat
  vertex_buffer : Nat
  index_buffer : Nat
  index_buffer_size : Int
  has_tex_coord : Bool
  v_count : Int
deriving DecidableEq, Repr

namespace OpenGlGeometry

/-- `static constexpr GLuint kInvalid = std::numeric_limits<GLuint>::max()`. -/
def kInvalid : Nat := 2 ^ 32 - 1

/-- The default constructor `OpenGlGeometry() = default`: every field takes
its member initializer (`vertex_array{kInvalid}`, `vertex_buffer{kInvalid}`,
`index_buffer{kInvalid}`, `index_buffer_size{0}`, `has_tex_coord{}`,
`v_count{}`). -/
def default : OpenGlGeometry :=
  { vertex_array := kInvalid
    vertex_buffer := kInvalid
    index_buffer := kInvalid
    index_buffer_size := 0
    has_tex_coord := false
    v_count := 0 }

/-- The six-argument constructor: initializes all members from the
arguments, then `throw std::logic_error("Index buffer size must be
non-negative")` when `index_buffer_size < 0`. -/
def construct (vertex_array_in vertex_buffer_in index_buffer_in : Nat)
    (index_buffer_size_in : Int) (has_tex_coord_in : Bool) (v_count_in : Int) :
    Except String OpenGlGeometry :=
  let g : OpenGlGeometry :=
    { vertex_array := vertex_array_in
      vertex_buffer := vertex_buffer_in
      index_buffer := index_buffer_in
      index_buffer_size := index_buffer_size_in
      has_tex_coord := has_tex_coord_in
      v_count := v_count_in }
  if g.index_buffer_size < 0 then
    .error "Index buffer size must be non-negative"
  else
    .ok g

/-- `bool is_defined() const`: all three handles differ from `kInvalid`. -/
def is_defined (g : OpenGlGeometry) : Bool :=
  g.vertex_array != kInvalid && g.vertex_buffer != kInvalid &&
    g.index_buffer != kInvalid

/-- `void throw_if_undefined(const char* message) const`: throws
`std::logic_error(message)` when `is_defined()` is false. -/
def throw_if_undefined (g : OpenGlGeometry) (message : String) :
    Except String Unit :=
  if !g.is_defined then .error message else .ok ()

end OpenGlGeometry

/-- Modelled from the spec: `ShaderProgramData` lives in
`internal_shader_program_data.h`, which is not part of this excerpt.  The
spec describes it only as "a shader binding value exposing
`shaderId().isValid()`; this design only checks validity, never shader
semantics", validity meaning the identifier is not the reserved sentinel.
We model the binding as its shader identifier plus the identifier's
validity bit. -/
structure ShaderProgramData where
  shader_id_value : Int
  shader_id_valid : Bool
deriving DecidableEq, Repr

/-- Modelled from the spec: `shader_id().is_valid()` of a binding. -/
def ShaderProgramData.shader_id_is_valid (d : ShaderProgramData) : Bool :=
  d.shader_id_valid

/-- A 3-vector of doubles (`Vector3<double>`); the instance only stores it,
so the carrier for its entries is immaterial to every claim — we use `ℚ`. -/
structure Vector3 where
  x : ℚ
  y : ℚ
  z : ℚ
deriving DecidableEq, Repr

/-- `math::RigidTransformd`: a rotation and a translation.  The instance
only stores it; we carry the rotation's three rows and the translation. -/
structure RigidTransformd where
  rotation_row0 : Vector3
  rotation_row1 : Vector3
  rotation_row2 : Vector3
  translation : Vector3
deriving DecidableEq, Repr

/-- One error value per `DRAKE_DEMAND` in the `OpenGlInstance` constructor,
in source order. -/
inductive DemandFailure where
  | invalidColorShader
  | invalidDepthShader
  | invalidLabelShader
  | negativeGeometry
deriving DecidableEq, Repr

/-- Whether a `DemandFailure` is one of the three shader-validity demands
(as opposed to the `geometry >= 0` demand). -/
def DemandFailure.isShaderFailure : DemandFailure → Bool
  | .invalidColorShader => true
  | .invalidDepthShader => true
  | .invalidLabelShader => true
  | .negativeGeometry => false

/-- `struct OpenGlInstance`.  `shader_data` is
`std::array<ShaderProgramData, RenderType::kTypeCount>`, modelled as a
total function from the three render types. -/
structure OpenGlInstance where
  geometry : Int
  X_WG : RigidTransformd
  scale : Vector3
  shader_data : RenderType → ShaderProgramData

namespace OpenGlInstance

/-- The `OpenGlInstance` constructor: stores `geometry`, `X_WG` and `scale`,
runs `DRAKE_DEMAND(color_data.shader_id().is_valid())`, then the same for
`depth_data` and `label_data`, assigns `shader_data[kColor] = color_data`,
`shader_data[kDepth] = depth_data`, `shader_data[kLabel] = label_data`, and
finally `DRAKE_DEMAND(geometry >= 0)`.  Each failed demand aborts, modelled
as `Except.error` with the corresponding `DemandFailure`. -/
def construct (g_in : Int) (pose_in : RigidTransformd) (scale_in : Vector3)
    (color_data depth_data label_data : ShaderProgramData) :
    Except DemandFailure OpenGlInstance :=
  if !color_data.shader_id_is_valid then .error .invalidColorShader
  else if !depth_data.shader_id_is_valid then .error .invalidDepthShader
  else if !label_data.shader_id_is_valid then .error .invalidLabelShader
  else if g_in < 0 then .error .negativeGeometry
  else
    .ok { geometry := g_in
          X_WG := pose_in
          scale := scale_in
          shader_data := fun rt =>
            match rt with
            | .kColor => color_data
            | .kDepth => depth_data
            | .kLabel => label_data }

end OpenGlInstance

/-! ## `pixel_types.h` -/

/-- `enum class PixelType`, in source order (`kExpr` is deprecated but still
an enumerator). -/
inductive PixelType where
  | kRgb8U
  | kBgr8U
  | kRgba8U
  | kBgra8U
  | kGrey8U
  | kDepth16U
  | kDepth32F
  | kLabel16I
  | kExpr
deriving DecidableEq, Repr

/-- `enum class PixelFormat`, in source order. -/
inductive PixelFormat where
  | kRgb
  | kBgr
  | kRgba
  | kBgra
  | kGrey
  | kDepth
  | kLabel
  | kExpr
deriving DecidableEq, Repr

/-- `enum class PixelScalar`: the closed set of channel scalar kinds. -/
inductive PixelScalar where
  | k8U
  | k16I
  | k16U
  | k32F
deriving DecidableEq, Repr

/-- A value of a 32-bit IEEE float as it appears in the depth trait table.
Only the exactly-representable constants `0.0f` and
`std::numeric_limits<float>::infinity()` occur, and no arithmetic is
performed on them, so an exact symbolic carrier suffices. -/
inductive Float32Value where
  | finite (q : ℚ)
  | posInf
  | negInf
deriving DecidableEq, Repr

/-- `std::numeric_limits<uint16_t>::max()`. -/
def uint16Max : Nat := 2 ^ 16 - 1

/-- A depth-sentinel channel value: a `float` for `kDepth32F`, a `uint16_t`
for `kDepth16U`. -/
inductive SentinelValue where
  | f32 (v : Float32Value)
  | u16 (v : Nat)
deriving DecidableEq, Repr

namespace ImageTraits

/-- `ImageTraits<pt>::kNumChannels`, one constant per specialization. -/
def kNumChannels : PixelType → Int
  | .kRgb8U => 3
  | .kBgr8U => 3
  | .kRgba8U => 4
  | .kBgra8U => 4
  | .kGrey8U => 1
  | .kDepth16U => 1
  | .kDepth32F => 1
  | .kLabel16I => 1
  | .kExpr => 1

/-- `ImageTraits<pt>::kPixelScalar` where the specialization declares it;
the `kExpr` specialization declares no `kPixelScalar` member (its channel
type is `symbolic::Expression`), hence `none` there. -/
def kPixelScalar? : PixelType → Option PixelScalar
  | .kRgb8U => some .k8U
  | .kBgr8U => some .k8U
  | .kRgba8U => some .k8U
  | .kBgra8U => some .k8U
  | .kGrey8U => some .k8U
  | .kDepth16U => some .k16U
  | .kDepth32F => some .k32F
  | .kLabel16I => some .k16I
  | .kExpr => none

/-- `ImageTraits<pt>::kPixelFormat`, one constant per specialization. -/
def kPixelFormat : PixelType → PixelFormat
  | .kRgb8U => .kRgb
  | .kBgr8U => .kBgr
  | .kRgba8U => .kRgba
  | .kBgra8U => .kBgra
  | .kGrey8U => .kGrey
  | .kDepth16U => .kDepth
  | .kDepth32F => .kDepth
  | .kLabel16I => .kLabel
  | .kExpr => .kExpr

/-- The `(kTooClose, kTooFar)` pair for the specializations that declare the
sentinels: `kDepth32F` declares `kTooClose = 0.0f` and
`kTooFar = std::numeric_limits<float>::infinity()`; `kDepth16U` declares
`kTooClose = 0` and `kTooFar = std::numeric_limits<uint16_t>::max()`.  No
other specialization declares either constant, hence `none`. -/
def kSentinels? : PixelType → Option (SentinelValue × SentinelValue)
  | .kDepth32F => some (.f32 (.finite 0), .f32 .posInf)
  | .kDepth16U => some (.u16 0, .u16 uint16Max)
  | _ => none

end ImageTraits

/-! ## Theorems -/

/-- C1: `is_defined` is true iff none of the three handles equals the
invalid-handle sentinel `kInvalid` (covering all combinations of valid and
invalid handle values), and its result does not depend on
`index_buffer_size`, `has_tex_coord` or `v_count`. -/
theorem c1_is_defined_iff_no_invalid_handle
    (va vb ib : Nat) (sz sz' : Int) (tc tc' : Bool) (vc vc' : Int) :
    ((OpenGlGeometry.mk va vb ib sz tc vc).is_defined = true ↔
      va ≠ OpenGlGeometry.kInvalid ∧ vb ≠ OpenGlGeometry.kInvalid ∧
        ib ≠ OpenGlGeometry.kInvalid) ∧
    (OpenGlGeometry.mk va vb ib sz tc vc).is_defined =
      (OpenGlGeometry.mk va vb ib sz' tc' vc').is_defined := by
  refine ⟨?_, rfl⟩
  simp [OpenGlGeometry.is_defined, and_assoc]

/-- C2: the `OpenGlGeometry` constructor throws exactly when the supplied
index count is negative, and for a non-negative index count it stores
exactly the supplied handles, index count, texture-coordinate flag and
vertex count. -/
theorem c2_construct_validates_index_count
    (va vb ib : Nat) (sz : Int) (tc : Bool) (vc : Int) :
    (sz < 0 → OpenGlGeometry.construct va vb ib sz tc vc =
      .error "Index buffer size must be non-negative") ∧
    (0 ≤ sz → OpenGlGeometry.construct va vb ib sz tc vc =
      .ok (OpenGlGeometry.mk va vb ib sz tc vc)) := by
  constructor
  · intro h
    simp [OpenGlGeometry.construct, h]
  · intro h
    simp [OpenGlGeometry.construct, not_lt.mpr h]

/-- Witness for C2 at a negative and at a non-negative index count. -/
theorem c2_construct_validates_index_count_witness :
    OpenGlGeometry.construct 1 2 3 (-1) true 4 =
      .error "Index buffer size must be non-negative" ∧
    OpenGlGeometry.construct 1 2 3 36 true 24 =
      .ok (OpenGlGeometry.mk 1 2 3 36 true 24) :=
  ⟨(c2_construct_validates_index_count 1 2 3 (-1) true 4).1 (by decide),
   (c2_construct_validates_index_count 1 2 3 36 true 24).2 (by decide)⟩

/-- C3 counterexample: construction with vertex count `-5` (and index count
`0`) does not fail; it succeeds and stores the negative vertex count. -/
theorem c3_negative_v_count_accepted_counterexample :
    OpenGlGeometry.construct 1 2 3 0 false (-5) =
      .ok (OpenGlGeometry.mk 1 2 3 0 false (-5)) := by
  rfl

/-- C3 amended: the constructor validates only the index count.  It fails
iff the index count is negative; a negative vertex count is not checked,
so with a non-negative index count construction succeeds and stores the
vertex count as supplied, even when it is negative. -/
theorem c3_only_index_count_checked
    (va vb ib : Nat) (sz : Int) (tc : Bool) (vc : Int) :
    ((OpenGlGeometry.construct va vb ib sz tc vc).isOk = false ↔ sz < 0) ∧
    (vc < 0 → 0 ≤ sz → OpenGlGeometry.construct va vb ib sz tc vc =
      .ok (OpenGlGeometry.mk va vb ib sz tc vc)) := by
  constructor
  · rcases lt_or_le sz 0 with h | h
    · simp [OpenGlGeometry.construct, h, Except.isOk, Except.toBool]
    · simp [OpenGlGeometry.construct, not_lt.mpr h, Except.isOk,
        Except.toBool]
  · intro _ hsz
    simp [OpenGlGeometry.construct, not_lt.mpr hsz]

/-- Witness for C3's amended theorem at vertex count `-5`. -/
theorem c3_only_index_count_checked_witness :
    ((OpenGlGeometry.construct 1 2 3 0 false (-5)).isOk = false ↔
      (0 : Int) < 0) ∧
    OpenGlGeometry.construct 1 2 3 0 false (-5) =
      .ok (OpenGlGeometry.mk 1 2 3 0 false (-5)) :=
  ⟨(c3_only_index_count_checked 1 2 3 0 false (-5)).1,
   (c3_only_index_count_checked 1 2 3 0 false (-5)).2 (by decide) (by decide)⟩

/-- C4: `OpenGlInstance` construction hits a shader-validity demand iff at
least one of the three supplied bindings has an invalid shader id,
whichever position it is in; and with all three bindings valid and a
non-negative geometry index, construction succeeds. -/
theorem c4_instance_shader_validity
    (g : Int) (pose : RigidTransformd) (scale : Vector3)
    (c d l : ShaderProgramData) :
    ((∃ e, OpenGlInstance.construct g pose scale c d l = .error e ∧
        e.isShaderFailure = true) ↔
      ¬(c.shader_id_is_valid = true ∧ d.shader_id_is_valid = true ∧
        l.shader_id_is_valid = true)) ∧
    (c.shader_id_is_valid = true → d.shader_id_is_valid = true →
      l.shader_id_is_valid = true → 0 ≤ g →
      (OpenGlInstance.construct g pose scale c d l).isOk = true) := by
  constructor
  · unfold OpenGlInstance.construct
    cases hc : c.shader_id_is_valid <;>
      cases hd : d.shader_id_is_valid <;>
        cases hl : l.shader_id_is_valid <;>
          simp [DemandFailure.isShaderFailure]
    intro e
    rcases lt_or_le g 0 with hg | hg
    · simp [hg]
      rintro rfl
      simp [DemandFailure.isShaderFailure]
    · simp [not_lt.mpr hg]
  · intro hc hd hl hg
    simp [OpenGlInstance.construct, hc, hd, hl, not_lt.mpr hg, Except.isOk,
      Except.toBool]

/-- Witness for C4: an invalid binding in each of the three positions is
reported as a shader failure, and a fully valid call succeeds. -/
theorem c4_instance_shader_validity_witness :
    ((∃ e, OpenGlInstance.construct 0
        (RigidTransformd.mk ⟨1, 0, 0⟩ ⟨0, 1, 0⟩ ⟨0, 0, 1⟩ ⟨0, 0, 0⟩)
        ⟨1, 1, 1⟩ ⟨7, false⟩ ⟨8, true⟩ ⟨9, true⟩ = .error e ∧
        e.isShaderFailure = true) ↔
      ¬((false : Bool) = true ∧ (true : Bool) = true ∧
        (true : Bool) = true)) ∧
    (OpenGlInstance.construct 0
      (RigidTransformd.mk ⟨1, 0, 0⟩ ⟨0, 1, 0⟩ ⟨0, 0, 1⟩ ⟨0, 0, 0⟩)
      ⟨1, 1, 1⟩ ⟨7, true⟩ ⟨8, true⟩ ⟨9, true⟩).isOk = true :=
  ⟨(c4_instance_shader_validity 0
      (RigidTransformd.mk ⟨1, 0, 0⟩ ⟨0, 1, 0⟩ ⟨0, 0, 1⟩ ⟨0, 0, 0⟩)
      ⟨1, 1, 1⟩ ⟨7, false⟩ ⟨8, true⟩ ⟨9, true⟩).1,
   (c4_instance_shader_validity 0
      (RigidTransformd.mk ⟨1, 0, 0⟩ ⟨0, 1, 0⟩ ⟨0, 0, 1⟩ ⟨0, 0, 0⟩)
      ⟨1, 1, 1⟩ ⟨7, true⟩ ⟨8, true⟩ ⟨9, true⟩).2 rfl rfl rfl (by decide)⟩

/-- C5: given three valid shader bindings, `OpenGlInstance` construction
fails iff the geometry index is negative, and on success the stored
`geometry` field equals the supplied index exactly. -/
theorem c5_instance_geometry_round_trip
    (g : Int) (pose : RigidTransformd) (scale : Vector3)
    (c d l : ShaderProgramData)
    (hc : c.shader_id_is_valid = true) (hd : d.shader_id_is_valid = true)
    (hl : l.shader_id_is_valid = true) :
    ((OpenGlInstance.construct g pose scale c d l).isOk = false ↔ g < 0) ∧
    (∀ inst, OpenGlInstance.construct g pose scale c d l = .ok inst →
      inst.geometry = g) := by
  unfold OpenGlInstance.construct
  simp only [hc, hd, hl, Bool.not_true]
  constructor
  · rcases lt_or_le g 0 with hg | hg
    · simp [hg, Except.isOk, Except.toBool]
    · simp [not_lt.mpr hg, Except.isOk, Except.toBool, not_lt.mpr hg]
  · intro inst h
    rcases lt_or_le g 0 with hg | hg
    · simp [hg] at h
    · simp [not_lt.mpr hg] at h
      subst h
      rfl

/-- Witness for C5 at geometry index `0` with valid bindings. -/
theorem c5_instance_geometry_round_trip_witness :
    ((OpenGlInstance.construct 0
        (RigidTransformd.mk ⟨1, 0, 0⟩ ⟨0, 1, 0⟩ ⟨0, 0, 1⟩ ⟨0, 0, 0⟩)
        ⟨1, 1, 1⟩ ⟨7, true⟩ ⟨8, true⟩ ⟨9, true⟩).isOk = false ↔
      (0 : Int) < 0) ∧
    (∀ inst, OpenGlInstance.construct 0
        (RigidTransformd.mk ⟨1, 0, 0⟩ ⟨0, 1, 0⟩ ⟨0, 0, 1⟩ ⟨0, 0, 0⟩)
        ⟨1, 1, 1⟩ ⟨7, true⟩ ⟨8, true⟩ ⟨9, true⟩ = .ok inst →
      inst.geometry = 0) :=
  c5_instance_geometry_round_trip 0
    (RigidTransformd.mk ⟨1, 0, 0⟩ ⟨0, 1, 0⟩ ⟨0, 0, 1⟩ ⟨0, 0, 0⟩)
    ⟨1, 1, 1⟩ ⟨7, true⟩ ⟨8, true⟩ ⟨9, true⟩ rfl rfl rfl

/-- C6: for every successfully constructed instance, indexing
`shader_data` by a render type is a total lookup returning exactly the
binding supplied for that render type: the color binding at `kColor`, the
depth binding at `kDepth` and the label binding at `kLabel`. -/
theorem c6_shader_data_lookup
    (g : Int) (pose : RigidTransformd) (scale : Vector3)
    (c d l : ShaderProgramData) (inst : OpenGlInstance)
    (h : OpenGlInstance.construct g pose scale c d l = .ok inst) :
    inst.shader_data .kColor = c ∧ inst.shader_data .kDepth = d ∧
      inst.shader_data .kLabel = l := by
  unfold OpenGlInstance.construct at h
  split at h
  · exact absurd h (by simp)
  split at h
  · exact absurd h (by simp)
  split at h
  · exact absurd h (by simp)
  split at h
  · exact absurd h (by simp)
  injection h with h
  subst h
  exact ⟨rfl, rfl, rfl⟩

/-- Witness for C6 on a concrete successful construction. -/
theorem c6_shader_data_lookup_witness :
    (OpenGlInstance.construct 0
        (RigidTransformd.mk ⟨1, 0, 0⟩ ⟨0, 1, 0⟩ ⟨0, 0, 1⟩ ⟨0, 0, 0⟩)
        ⟨1, 1, 1⟩ ⟨7, true⟩ ⟨8, true⟩ ⟨9, true⟩).isOk = true ∧
    ∀ inst, OpenGlInstance.construct 0
        (RigidTransformd.mk ⟨1, 0, 0⟩ ⟨0, 1, 0⟩ ⟨0, 0, 1⟩ ⟨0, 0, 0⟩)
        ⟨1, 1, 1⟩ ⟨7, true⟩ ⟨8, true⟩ ⟨9, true⟩ = .ok inst →
      inst.shader_data .kColor = ⟨7, true⟩ ∧
        inst.shader_data .kDepth = ⟨8, true⟩ ∧
        inst.shader_data .kLabel = ⟨9, true⟩ :=
  ⟨by decide, fun inst h =>
    c6_shader_data_lookup 0
      (RigidTransformd.mk ⟨1, 0, 0⟩ ⟨0, 1, 0⟩ ⟨0, 0, 1⟩ ⟨0, 0, 0⟩)
      ⟨1, 1, 1⟩ ⟨7, true⟩ ⟨8, true⟩ ⟨9, true⟩ inst h⟩

/-- C7: the depth sentinels are exactly `kTooClose = 0.0` and
`kTooFar = +infinity` for `kDepth32F`, and `kTooClose = 0` and
`kTooFar = 65535` (the maximum `uint16_t` value) for `kDepth16U`. -/
theorem c7_depth_sentinel_values :
    ImageTraits.kSentinels? .kDepth32F =
      some (.f32 (.finite 0), .f32 .posInf) ∧
    ImageTraits.kSentinels? .kDepth16U = some (.u16 0, .u16 65535) ∧
    uint16Max = 65535 := by
  exact ⟨rfl, rfl, rfl⟩

/-- C8 counterexample: the `ImageTraits` specialization for the deprecated
`kExpr` pixel type declares no `kPixelScalar` member, so the channel-scalar
attribute is not present for every enumerator of `PixelType`. -/
theorem c8_kExpr_has_no_pixel_scalar_counterexample :
    ImageTraits.kPixelScalar? PixelType.kExpr = none := by
  rfl

/-- C8 amended: every pixel type's descriptor provides a channel count
between 1 and 4 and a semantic format, and every pixel type except the
deprecated `kExpr` provides a channel scalar kind from the closed
`PixelScalar` set; `kExpr` provides none. -/
theorem c8_descriptor_attributes (p : PixelType) :
    (1 ≤ ImageTraits.kNumChannels p ∧ ImageTraits.kNumChannels p ≤ 4) ∧
    ((ImageTraits.kPixelScalar? p).isSome = true ↔ p ≠ PixelType.kExpr) ∧
    ImageTraits.kPixelFormat p = ImageTraits.kPixelFormat p := by
  cases p <;> exact ⟨by decide, by decide, rfl⟩

/-- C9: a pixel type's descriptor defines the `kTooClose`/`kTooFar`
sentinel pair iff its semantic format is depth: both depth types define
both sentinels and no other pixel type defines either. -/
theorem c9_sentinels_iff_depth_format (p : PixelType) :
    (ImageTraits.kSentinels? p).isSome = true ↔
      ImageTraits.kPixelFormat p = PixelFormat.kDepth := by
  cases p <;> decide

/-- C10: a default-constructed `OpenGlGeometry` has all three handles equal
to `kInvalid`, zero index-buffer size and vertex count, no texture
coordinates, is never defined, and `throw_if_undefined` always throws the
given message on it. -/
theorem c10_default_geometry_undefined :
    OpenGlGeometry.default.vertex_array = OpenGlGeometry.kInvalid ∧
    OpenGlGeometry.default.vertex_buffer = OpenGlGeometry.kInvalid ∧
    OpenGlGeometry.default.index_buffer = OpenGlGeometry.kInvalid ∧
    OpenGlGeometry.default.index_buffer_size = 0 ∧
    OpenGlGeometry.default.has_tex_coord = false ∧
    OpenGlGeometry.default.v_count = 0 ∧
    OpenGlGeometry.default.is_defined = false ∧
    (∀ message : String,
      OpenGlGeometry.default.throw_if_undefined message = .error message) := by
  refine ⟨rfl, rfl, rfl, rfl, rfl, rfl, by decide, ?_⟩
  intro message
  rfl

end Drake
